import Mathlib

/-!
Verification of the EAA Growers decision-support core (src/app.py).

The Python source is shallowly embedded: Python floats are modelled by ℚ,
Python `None` by `Option`, the Streamlit session dictionary by the
structure `SessionState`, and the external library operations that the
handlers call (shapely point-in-polygon containment, the geopandas area
reprojection, Python's `round(x, 1)`, and numpy's seeded generator
`np.random.default_rng(seed)`) by an explicit record of functions
`ExternalOps`, each a pure function of its arguments exactly as the
corresponding library call is.
-/

namespace EAA

/-- The Streamlit session dictionary (src/app.py lines 47-60, `defaults`).
Fields that start as Python `None` are `Option`s; `display_som` is an
`Option` because step 2 copies the possibly-`None` `est_som` into it. -/
structure SessionState where
  step : ℕ
  clicked_lat : Option ℚ
  clicked_lon : Option ℚ
  est_som : Option ℚ
  est_depth : Option ℤ
  display_ph : ℚ
  display_som : Option ℚ
  saved_farm_size : ℤ
  selected_crop : String
  drawn_area_ha : Option ℚ
  selection_mode : String
  map_key : ℕ
deriving DecidableEq

/-- The `defaults` dictionary of src/app.py lines 47-60. -/
def defaults : SessionState where
  step := 1
  clicked_lat := none
  clicked_lon := none
  est_som := none
  est_depth := none
  display_ph := 6.5
  display_som := some 0.0
  saved_farm_size := 100
  selected_crop := "Sugarcane"
  drawn_area_ha := none
  selection_mode := "point"
  map_key := 0

/-- Embeds `reset_survey` (src/app.py lines 65-69): every key except `map_key`
is set back to its default, then `map_key` is incremented. -/
def reset_survey (s : SessionState) : SessionState :=
  { defaults with map_key := s.map_key + 1 }

/-- Embeds the `depth_factor` of `calculate_carbon_impact` (src/app.py line 113). -/
def depth_factor (depth_cm : ℚ) : ℚ := min (depth_cm / 30) 1

/-- Embeds the `som_factor` of `calculate_carbon_impact` (src/app.py line 114). -/
def som_factor (som_pct : ℚ) : ℚ := min (som_pct / 60) 1

/-- Embeds `calculate_carbon_impact` (src/app.py lines 112-115). -/
def calculate_carbon_impact (base_credits farm_size depth_cm som_pct : ℚ) : ℚ :=
  base_credits * farm_size * depth_factor depth_cm * som_factor som_pct

/-- The cars-offset figure of src/app.py line 335:
`cars = (adj_credits / size / 4.6) if size > 0 else 0`. -/
def cars_offset (adj_credits size : ℚ) : ℚ :=
  if size > 0 then adj_credits / size / 4.6 else 0

/-- Organic-matter classification of step 3 (src/app.py lines 276-278). -/
def som_label (som : ℚ) : String :=
  if som < 40 then "⚠ Low Organic Matter"
  else if 40 ≤ som ∧ som ≤ 70 then "✓ Moderate Organic Matter"
  else "✓ Good Organic Matter"

/-- pH classification of step 3 (src/app.py lines 280-284). -/
def ph_label (ph : ℚ) : String :=
  if ph < 5.5 then "⚠ Extremely Low"
  else if 5.5 ≤ ph ∧ ph < 6.5 then "⚠ Low pH"
  else if 6.5 ≤ ph ∧ ph ≤ 7.5 then "✓ Good pH"
  else if 7.5 < ph ∧ ph ≤ 8.5 then "⚠ High pH"
  else "⚠ Extremely High"

/-- Depth classification of step 3 (src/app.py lines 286-288). -/
def depth_band_label (depth : ℤ) : String :=
  if depth < 30 then "⚠ Very Low Depth"
  else if 30 ≤ depth ∧ depth ≤ 100 then "✓ Adequate Depth"
  else "✓ Very High Depth"

/-- Python `int()` applied to a float: truncation toward zero. -/
def pyInt (q : ℚ) : ℤ := if 0 ≤ q then ⌊q⌋ else ⌈q⌉

/-- The seed computed at src/app.py line 155:
`int((lat + lon) * 10000) % (2**31)`.  Lean's `Int.emod` with a positive
divisor is, like Python's `%`, non-negative. -/
def seedOf (lat lon : ℚ) : ℤ := (pyInt ((lat + lon) * 10000)) % (2 ^ 31)

/-- The draws that `np.random.default_rng(seed)` would deliver inside
`predict_soil_metrics`: the uniform [25,85] sample, the 40/50/10
categorical choice, and the integer that `rng.integers` would return in
each of the three branches.  numpy's seeded generator is a pure function
of the seed, so these are modelled as a record produced by a function of
the seed (the `gen` field of `ExternalOps`). -/
structure NumpyDraws where
  uniform_25_85 : ℚ
  depth_choice : String
  shallow_draw : ℤ
  adequate_draw : ℤ
  deep_draw : ℤ

/-- The external library operations used by the handlers, each a pure
function of its arguments: `contains lon lat` models
`eaa_poly.contains(Point(lon, lat))`; `round1` models Python's
`round(x, 1)`; `gen` models `np.random.default_rng(seed)`'s draw
sequence as a function of the seed. -/
structure ExternalOps where
  contains : ℚ → ℚ → Bool
  round1 : ℚ → ℚ
  gen : ℤ → NumpyDraws

/-- Embeds `predict_soil_metrics` (src/app.py lines 154-168): seed from the
coordinates, a rounded uniform organic-matter draw, and a depth drawn
from the branch selected by the categorical choice. -/
def predict_soil_metrics (ext : ExternalOps) (lat lon : ℚ) : ℚ × ℤ :=
  let d := ext.gen (seedOf lat lon)
  let som := ext.round1 d.uniform_25_85
  let depth :=
    if d.depth_choice = "shallow" then d.shallow_draw
    else if d.depth_choice = "adequate" then d.adequate_draw
    else d.deep_draw
  (som, depth)

/-- A drawing returned by the map widget: its GeoJSON geometry type, and
the result of running `shape(...)`, the centroid accessors and the area
reprojection on it.  `parsed = none` models the whole `try` block of
src/app.py lines 203-220 raising (a malformed payload): the `except: pass`
then leaves everything untouched and `drawing_processed` stays `False`. -/
structure ParsedShape where
  centroid_x : ℚ
  centroid_y : ℚ
  raw_area_ha : ℚ
deriving DecidableEq

structure DrawnGeometry where
  geomType : String
  parsed : Option ParsedShape
deriving DecidableEq

/-- The `st_folium` return value, as read by the handlers: the list of
drawings and the last clicked point as `(lat, lng)`. -/
structure MapData where
  all_drawings : List DrawnGeometry
  last_clicked : Option (ℚ × ℚ)
deriving DecidableEq

/-- The drawing (polygon) handler, src/app.py lines 199-220.  Returns the
new session, the `drawing_processed` flag, and whether `st.rerun()` was
raised (which aborts the rest of the script run). -/
def process_drawings (ext : ExternalOps) (md : MapData) (s : SessionState) :
    SessionState × Bool × Bool :=
  match md.all_drawings.getLast? with
  | none => (s, false, false)
  | some last_drawing =>
    if last_drawing.geomType = "Polygon" ∨ last_drawing.geomType = "MultiPolygon" then
      match last_drawing.parsed with
      | none => (s, false, false)
      | some p =>
        if s.clicked_lat ≠ some p.centroid_y then
          if ext.contains p.centroid_x p.centroid_y then
            ({ s with
                drawn_area_ha := some (ext.round1 p.raw_area_ha)
                clicked_lat := some p.centroid_y
                clicked_lon := some p.centroid_x
                selection_mode := "polygon"
                est_som := some (predict_soil_metrics ext p.centroid_y p.centroid_x).1
                est_depth := some (predict_soil_metrics ext p.centroid_y p.centroid_x).2
                step := 2 }, true, true)
          else (s, true, false)
        else (s, true, false)
    else (s, false, false)

/-- The `last_clicked` (point) handler, src/app.py lines 222-233.
Runs only when `drawing_processed` is false.  Returns the new session and
whether `st.rerun()` was raised. -/
def process_click (ext : ExternalOps) (md : MapData) (drawing_processed : Bool)
    (s : SessionState) : SessionState × Bool :=
  if !drawing_processed then
    match md.last_clicked with
    | none => (s, false)
    | some latlng =>
      if ext.contains latlng.2 latlng.1 then
        if s.clicked_lat ≠ some latlng.1 then
          ({ s with
              clicked_lat := some latlng.1
              clicked_lon := some latlng.2
              drawn_area_ha := none
              selection_mode := "point"
              est_som := some (predict_soil_metrics ext latlng.1 latlng.2).1
              est_depth := some (predict_soil_metrics ext latlng.1 latlng.2).2
              step := 2 }, true)
        else (s, false)
      else (s, false)
  else (s, false)

/-- One full map-event pass (src/app.py lines 199-233): the drawing
handler, then, unless it called `st.rerun()`, the click handler gated by
`drawing_processed`. -/
def handle_map_event (ext : ExternalOps) (md : MapData) (s : SessionState) : SessionState :=
  let r := process_drawings ext md s
  if r.2.2 then r.1 else (process_click ext md r.2.1 r.1).1

/-- The step-2 forward transition `go_to_step3` (src/app.py lines 257-266).
When the user declares lab data, the categorical pH / organic-matter
choices resolve through `ph_map` / `som_map` to fixed representative
values; that resolution is a pure function of the fixed selectbox strings,
so the resolved values are taken as arguments here.  Otherwise the
defaults `6.5` and the estimated `est_som` are used. -/
def go_to_step3 (has_test : Bool) (ph_val som_val : ℚ) (s : SessionState) : SessionState :=
  if has_test then
    { s with display_ph := ph_val, display_som := some som_val, step := 3 }
  else
    { s with display_ph := 6.5, display_som := s.est_som, step := 3 }

/-- A navigation-button jump that only changes `step` (the `back_step`
assignments of `navigation_buttons` and the step-3 forward lambda). -/
def set_step (n : ℕ) (s : SessionState) : SessionState := { s with step := n }

/-- The step-4 forward lambda (src/app.py line 320): commit the chosen
crop and the entered farm size and advance to step 5. -/
def commit_crop_plan (crop : String) (input_size : ℤ) (s : SessionState) : SessionState :=
  { s with selected_crop := crop, saved_farm_size := input_size, step := 5 }

/-- Python truthiness of `st.session_state.drawn_area_ha`: `None` and
`0.0` are falsy. -/
def truthyArea : Option ℚ → Bool
  | some q => decide (q ≠ 0)
  | none => false

/-- Embeds `default_size` (src/app.py line 304):
`min(int(drawn_area_ha) if drawn_area_ha else saved_farm_size, 500000)`. -/
def default_size (drawn_area_ha : Option ℚ) (saved_farm_size : ℤ) : ℤ :=
  min (if truthyArea drawn_area_ha then pyInt (drawn_area_ha.getD 0) else saved_farm_size)
    500000

/-- The event-driven transition relation of the workflow.  The map
handler runs on every script run whatever the step; each navigation
button exists only on the step whose branch renders it. -/
inductive Transition : SessionState → SessionState → Prop where
  | map_event (ext : ExternalOps) (md : MapData) (s : SessionState) :
      Transition s (handle_map_event ext md s)
  | back_to_1 (s : SessionState) (h : s.step = 2) : Transition s (set_step 1 s)
  | forward_2_3 (has_test : Bool) (ph_val som_val : ℚ) (s : SessionState) (h : s.step = 2) :
      Transition s (go_to_step3 has_test ph_val som_val s)
  | back_to_2 (s : SessionState) (h : s.step = 3) : Transition s (set_step 2 s)
  | forward_3_4 (s : SessionState) (h : s.step = 3) : Transition s (set_step 4 s)
  | back_to_3 (s : SessionState) (h : s.step = 4) : Transition s (set_step 3 s)
  | forward_4_5 (crop : String) (size : ℤ) (s : SessionState) (h : s.step = 4) :
      Transition s (commit_crop_plan crop size s)
  | restart (s : SessionState) (h : s.step = 5) : Transition s (reset_survey s)

/-- Session states reachable from the freshly initialized session. -/
inductive Reachable : SessionState → Prop where
  | init : Reachable defaults
  | trans (s s' : SessionState) : Reachable s → Transition s s' → Reachable s'

/-- The four fields that the soil diagnostics and the carbon computation
read are populated. -/
def populated (s : SessionState) : Prop :=
  s.clicked_lat.isSome ∧ s.clicked_lon.isSome ∧ s.est_som.isSome ∧ s.est_depth.isSome

/-- A concrete instantiation of the external operations, for evaluating
the embedding at concrete inputs: containment always true, rounding the
identity, a fixed draw record. -/
def extDemo : ExternalOps where
  contains := fun _ _ => true
  round1 := fun q => q
  gen := fun _ => ⟨60.0, "adequate", 20, 100, 120⟩

/-- A concrete instantiation with containment always false. -/
def extOutside : ExternalOps where
  contains := fun _ _ => false
  round1 := fun q => q
  gen := fun _ => ⟨60.0, "adequate", 20, 100, 120⟩

/-- A map event holding one polygon-typed drawing whose parsing raised,
plus a click, used at concrete inputs. -/
def mdMalformed : MapData := ⟨[⟨"Polygon", none⟩], some (26, -81)⟩

/-- A map event holding only a click inside the region. -/
def mdClick : MapData := ⟨[], some (26.5, -80.8)⟩

/-- A session whose current selection latitude is 26. -/
def sameLatSession : SessionState := { defaults with clicked_lat := some 26 }

/-- A drawing whose parsed centroid is (lat 26, lon -81). -/
def sameLatDraw : DrawnGeometry := ⟨"Polygon", some ⟨-81, 26, 50⟩⟩

/-! ## Supporting lemmas -/

lemma depth_factor_nonneg (d : ℚ) (hd : 0 ≤ d) : 0 ≤ depth_factor d :=
  le_min (by positivity) zero_le_one

lemma som_factor_nonneg (m : ℚ) (hm : 0 ≤ m) : 0 ≤ som_factor m :=
  le_min (by positivity) zero_le_one

lemma depth_factor_mono {d₁ d₂ : ℚ} (h : d₁ ≤ d₂) : depth_factor d₁ ≤ depth_factor d₂ := by
  unfold depth_factor
  gcongr

lemma som_factor_mono {m₁ m₂ : ℚ} (h : m₁ ≤ m₂) : som_factor m₁ ≤ som_factor m₂ := by
  unfold som_factor
  gcongr

lemma depth_factor_sat {d : ℚ} (h : 30 ≤ d) : depth_factor d = 1 := by
  unfold depth_factor
  rw [min_eq_right]
  rw [le_div_iff₀ (by norm_num)]
  linarith

lemma som_factor_sat {m : ℚ} (h : 60 ≤ m) : som_factor m = 1 := by
  unfold som_factor
  rw [min_eq_right]
  rw [le_div_iff₀ (by norm_num)]
  linarith

/-! ## Claims -/

/-- C1: for every `base_credits`, `farm_size`, `depth_cm` and `som_pct`,
`calculate_carbon_impact` equals
`base_credits * farm_size * min(depth_cm / 30, 1) * min(som_pct / 60, 1)`. -/
theorem calculate_carbon_impact_formula (base_credits farm_size depth_cm som_pct : ℚ) :
    calculate_carbon_impact base_credits farm_size depth_cm som_pct =
      base_credits * farm_size * min (depth_cm / 30) 1 * min (som_pct / 60) 1 := rfl

/-- C3: the soil estimator is a pure deterministic function — for every
generator model and every pair of coordinates, two calls of
`predict_soil_metrics` at identical `(lat, lon)` return the identical
`(organic_matter_pct, depth_cm)` pair. -/
theorem predict_soil_metrics_deterministic (ext : ExternalOps) (lat₁ lon₁ lat₂ lon₂ : ℚ)
    (hlat : lat₁ = lat₂) (hlon : lon₁ = lon₂) :
    predict_soil_metrics ext lat₁ lon₁ = predict_soil_metrics ext lat₂ lon₂ := by
  rw [hlat, hlon]

theorem predict_soil_metrics_deterministic_witness :
    predict_soil_metrics extDemo 26.5 (-80.8) = predict_soil_metrics extDemo 26.5 (-80.8) :=
  predict_soil_metrics_deterministic extDemo 26.5 (-80.8) 26.5 (-80.8) rfl rfl

/-- C4: over the validated domain (non-negative base credits, size,
depth and organic matter, per §4.3 of the spec), `calculate_carbon_impact`
is monotonically non-decreasing in `farm_size` everywhere, in `depth_cm`
up to 30 and in `som_pct` up to 60; it is constant in `depth_cm` from 30
on and in `som_pct` from 60 on; and the depth factor is strictly below 1
at depth 29 and exactly 1 at depths 30 and 150. -/
theorem calculate_carbon_impact_monotone :
    (∀ b d m s₁ s₂ : ℚ, 0 ≤ b → 0 ≤ d → 0 ≤ m → s₁ ≤ s₂ →
       calculate_carbon_impact b s₁ d m ≤ calculate_carbon_impact b s₂ d m) ∧
    (∀ b s m d₁ d₂ : ℚ, 0 ≤ b → 0 ≤ s → 0 ≤ m → d₁ ≤ d₂ → d₂ ≤ 30 →
       calculate_carbon_impact b s d₁ m ≤ calculate_carbon_impact b s d₂ m) ∧
    (∀ b s d m₁ m₂ : ℚ, 0 ≤ b → 0 ≤ s → 0 ≤ d → m₁ ≤ m₂ → m₂ ≤ 60 →
       calculate_carbon_impact b s d m₁ ≤ calculate_carbon_impact b s d m₂) ∧
    (∀ b s m d₁ d₂ : ℚ, 30 ≤ d₁ → 30 ≤ d₂ →
       calculate_carbon_impact b s d₁ m = calculate_carbon_impact b s d₂ m) ∧
    (∀ b s d m₁ m₂ : ℚ, 60 ≤ m₁ → 60 ≤ m₂ →
       calculate_carbon_impact b s d m₁ = calculate_carbon_impact b s d m₂) ∧
    depth_factor 29 < 1 ∧ depth_factor 30 = 1 ∧ depth_factor 150 = 1 := by
  refine ⟨?_, ?_, ?_, ?_, ?_, ?_, ?_, ?_⟩
  · intro b d m s₁ s₂ hb hd hm hs
    unfold calculate_carbon_impact
    exact mul_le_mul_of_nonneg_right
      (mul_le_mul_of_nonneg_right (mul_le_mul_of_nonneg_left hs hb) (depth_factor_nonneg d hd))
      (som_factor_nonneg m hm)
  · intro b s m d₁ d₂ hb hs hm hd _
    unfold calculate_carbon_impact
    exact mul_le_mul_of_nonneg_right
      (mul_le_mul_of_nonneg_left (depth_factor_mono hd) (mul_nonneg hb hs))
      (som_factor_nonneg m hm)
  · intro b s d m₁ m₂ hb hs hd hm _
    unfold calculate_carbon_impact
    exact mul_le_mul_of_nonneg_left (som_factor_mono hm)
      (mul_nonneg (mul_nonneg hb hs) (depth_factor_nonneg d hd))
  · intro b s m d₁ d₂ h₁ h₂
    unfold calculate_carbon_impact
    rw [depth_factor_sat h₁, depth_factor_sat h₂]
  · intro b s d m₁ m₂ h₁ h₂
    unfold calculate_carbon_impact
    rw [som_factor_sat h₁, som_factor_sat h₂]
  · norm_num [depth_factor, min_def]
  · norm_num [depth_factor, min_def]
  · norm_num [depth_factor, min_def]

theorem calculate_carbon_impact_monotone_witness :
    calculate_carbon_impact 6.75 10 20 55 ≤ calculate_carbon_impact 6.75 12 20 55 :=
  calculate_carbon_impact_monotone.1 6.75 20 55 10 12 (by norm_num) (by norm_num)
    (by norm_num) (by norm_num)

/-- C5: the cars-offset figure equals `adjusted_credits / farm_size / 4.6`
whenever the farm size is positive, and equals 0 when the farm size is 0,
with no exception (the function is total). -/
theorem cars_offset_spec (adj size : ℚ) :
    (0 < size → cars_offset adj size = adj / size / 4.6) ∧
    (size = 0 → cars_offset adj size = 0) := by
  constructor
  · intro h
    unfold cars_offset
    rw [if_pos h]
  · intro h
    subst h
    norm_num [cars_offset]

theorem cars_offset_spec_witness :
    cars_offset 675 100 = 675 / 100 / 4.6 ∧ cars_offset 675 0 = 0 :=
  ⟨(cars_offset_spec 675 100).1 (by norm_num), (cars_offset_spec 675 0).2 rfl⟩

/-- C6: the stage-3 diagnostic classification assigns organic matter 35
the Low band, 55 the Moderate band and 75 the Good band, and pH 5.0 the
Extremely Low band, 6.0 Low, 7.0 Good, 8.0 High and 9.0 Extremely High
(label strings as in the source). -/
theorem step3_classification_bands :
    som_label 35 = "⚠ Low Organic Matter" ∧
    som_label 55 = "✓ Moderate Organic Matter" ∧
    som_label 75 = "✓ Good Organic Matter" ∧
    ph_label 5.0 = "⚠ Extremely Low" ∧
    ph_label 6.0 = "⚠ Low pH" ∧
    ph_label 7.0 = "✓ Good pH" ∧
    ph_label 8.0 = "⚠ High pH" ∧
    ph_label 9.0 = "⚠ Extremely High" := by
  refine ⟨?_, ?_, ?_, ?_, ?_, ?_, ?_, ?_⟩ <;> norm_num [som_label, ph_label]

/-- C7: from any session at stage S5, `reset_survey` puts the stage back
to 1, strictly increments the `map_key` session-identity counter, and
returns every other field to its documented default. -/
theorem reset_survey_resets (s : SessionState) (_h : s.step = 5) :
    (reset_survey s).step = 1 ∧
    (reset_survey s).map_key = s.map_key + 1 ∧
    s.map_key < (reset_survey s).map_key ∧
    (reset_survey s).clicked_lat = defaults.clicked_lat ∧
    (reset_survey s).clicked_lon = defaults.clicked_lon ∧
    (reset_survey s).est_som = defaults.est_som ∧
    (reset_survey s).est_depth = defaults.est_depth ∧
    (reset_survey s).display_ph = defaults.display_ph ∧
    (reset_survey s).display_som = defaults.display_som ∧
    (reset_survey s).saved_farm_size = defaults.saved_farm_size ∧
    (reset_survey s).selected_crop = defaults.selected_crop ∧
    (reset_survey s).drawn_area_ha = defaults.drawn_area_ha ∧
    (reset_survey s).selection_mode = defaults.selection_mode :=
  ⟨rfl, rfl, Nat.lt_succ_self _, rfl, rfl, rfl, rfl, rfl, rfl, rfl, rfl, rfl, rfl⟩

theorem reset_survey_resets_witness :
    (reset_survey { defaults with step := 5 }).step = 1 ∧
    (reset_survey { defaults with step := 5 }).map_key =
      ({ defaults with step := 5 } : SessionState).map_key + 1 :=
  ⟨(reset_survey_resets { defaults with step := 5 } rfl).1,
   (reset_survey_resets { defaults with step := 5 } rfl).2.1⟩

/-- C8, counterexample: with a present area selection of 0.4 ha and a
saved size of 100, the stage-4 default size is 0 — it is neither the
drawn area nor within the clamp bounds [1, 500000]. -/
theorem default_size_claim_cex :
    default_size (some (4 / 10)) 100 = 0 ∧
    ¬ (1 ≤ default_size (some (4 / 10)) 100) ∧
    ((default_size (some (4 / 10)) 100 : ℚ) ≠ 4 / 10) := by
  refine ⟨?_, ?_, ?_⟩ <;> norm_num [default_size, truthyArea, pyInt, min_def]

/-- C8, amended: the stage-4 default size equals the drawn area truncated
toward zero and capped at 500000 when a present drawn area is nonzero,
and otherwise the saved size capped at 500000; it never exceeds 500000,
and it is at least 1 when no (nonzero) drawn area is present and the
saved size is at least 1 — but a drawn area below 1 ha yields 0, below
the lower clamp bound. -/
theorem default_size_amended (area : Option ℚ) (saved : ℤ) :
    (truthyArea area = true →
       default_size area saved = min (pyInt (area.getD 0)) 500000) ∧
    (truthyArea area = false → default_size area saved = min saved 500000) ∧
    default_size area saved ≤ 500000 ∧
    (truthyArea area = false → 1 ≤ saved → 1 ≤ default_size area saved) := by
  refine ⟨?_, ?_, ?_, ?_⟩
  · intro h
    simp [default_size, h]
  · intro h
    simp [default_size, h]
  · exact min_le_right _ _
  · intro h h1
    simp only [default_size, h, if_neg]
    simp only [Bool.false_eq_true, if_false]
    exact le_min h1 (by norm_num)

theorem default_size_amended_witness :
    default_size none 100 = min 100 500000 ∧ 1 ≤ default_size none 100 :=
  ⟨(default_size_amended none 100).2.1 rfl, (default_size_amended none 100).2.2.2 rfl (by norm_num)⟩

/-! ## Handler lemmas -/

lemma process_drawings_spec (ext : ExternalOps) (md : MapData) (s : SessionState) :
    ((process_drawings ext md s).2.2 = true ∧ (process_drawings ext md s).1.step = 2 ∧
       populated (process_drawings ext md s).1) ∨
    ((process_drawings ext md s).2.2 = false ∧ (process_drawings ext md s).1 = s) := by
  unfold process_drawings
  split
  · exact Or.inr ⟨rfl, rfl⟩
  · split
    · split
      · exact Or.inr ⟨rfl, rfl⟩
      · split
        · split
          · exact Or.inl ⟨rfl, rfl, rfl, rfl, rfl, rfl⟩
          · exact Or.inr ⟨rfl, rfl⟩
        · exact Or.inr ⟨rfl, rfl⟩
    · exact Or.inr ⟨rfl, rfl⟩

lemma process_click_spec (ext : ExternalOps) (md : MapData) (b : Bool) (s : SessionState) :
    (process_click ext md b s).1 = s ∨
    ((process_click ext md b s).1.step = 2 ∧ populated (process_click ext md b s).1) := by
  unfold process_click
  split
  · split
    · exact Or.inl rfl
    · split
      · split
        · exact Or.inr ⟨rfl, rfl, rfl, rfl, rfl⟩
        · exact Or.inl rfl
      · exact Or.inl rfl
  · exact Or.inl rfl

lemma handle_map_event_spec (ext : ExternalOps) (md : MapData) (s : SessionState) :
    handle_map_event ext md s = s ∨
    ((handle_map_event ext md s).step = 2 ∧ populated (handle_map_event ext md s)) := by
  unfold handle_map_event
  rcases process_drawings_spec ext md s with ⟨hr, h2, hp⟩ | ⟨hr, h1⟩
  · simp only [hr, if_true]
    exact Or.inr ⟨h2, hp⟩
  · simp only [hr, Bool.false_eq_true, if_false]
    rw [h1]
    exact process_click_spec ext md _ s

lemma process_drawings_reject (ext : ExternalOps) (md : MapData) (s : SessionState)
    (h : ∀ d ∈ md.all_drawings.getLast?, ∀ p ∈ d.parsed,
        ext.contains p.centroid_x p.centroid_y = false) :
    (process_drawings ext md s).1 = s ∧ (process_drawings ext md s).2.2 = false := by
  unfold process_drawings
  split
  · exact ⟨rfl, rfl⟩
  · rename_i d heq
    split
    · split
      · exact ⟨rfl, rfl⟩
      · rename_i p hp
        have hcont := h d heq p hp
        split
        · split
          · rename_i hc
            rw [hcont] at hc
            simp at hc
          · exact ⟨rfl, rfl⟩
        · exact ⟨rfl, rfl⟩
    · exact ⟨rfl, rfl⟩

lemma process_click_reject (ext : ExternalOps) (md : MapData) (b : Bool) (s : SessionState)
    (h : ∀ c ∈ md.last_clicked, ext.contains c.2 c.1 = false) :
    (process_click ext md b s).1 = s := by
  unfold process_click
  split
  · split
    · rfl
    · rename_i c heq
      have hcont := h c heq
      split
      · rename_i hc
        rw [hcont] at hc
        simp at hc
      · rfl
  · rfl

/-- C2: an event whose representative point (the click, or the drawn
polygon's centroid) lies outside the region, or whose drawing payload is
malformed (`parsed = none`), leaves every session field unchanged — no
stage change, no selection, no soil reading.  The handler is a total
function, the embedded image of the source's `except: pass` /
toast-and-stay paths, so no exception escapes it. -/
theorem rejected_event_unchanged (ext : ExternalOps) (md : MapData) (s : SessionState)
    (hdraw : ∀ d ∈ md.all_drawings.getLast?, ∀ p ∈ d.parsed,
        ext.contains p.centroid_x p.centroid_y = false)
    (hclick : ∀ c ∈ md.last_clicked, ext.contains c.2 c.1 = false) :
    handle_map_event ext md s = s := by
  obtain ⟨h1, h2⟩ := process_drawings_reject ext md s hdraw
  unfold handle_map_event
  simp only [h2, Bool.false_eq_true, if_false]
  rw [h1]
  exact process_click_reject ext md _ s hclick

theorem rejected_event_unchanged_witness :
    handle_map_event extOutside mdMalformed defaults = defaults :=
  rejected_event_unchanged extOutside mdMalformed defaults
    (fun _ _ _ _ => rfl) (fun _ _ => rfl)

/-- C9: in every reachable session state at stage 2 or beyond, the
coordinate and soil-estimate fields are all populated, so the stage-3
diagnostics and the stage-5 carbon computation never read a missing
value. -/
theorem stage_ge2_soil_populated (s : SessionState) (h1 : Reachable s) (h2 : 2 ≤ s.step) :
    populated s := by
  revert h2
  induction h1 with
  | init => intro h2; norm_num [defaults] at h2
  | trans a b _ ht ih =>
    intro h2
    cases ht with
    | map_event ext md =>
      rcases handle_map_event_spec ext md a with he | ⟨_, hp⟩
      · rw [he] at h2 ⊢
        exact ih h2
      · exact hp
    | back_to_1 h => norm_num [set_step] at h2
    | forward_2_3 has_test pv sv h =>
      have hp := ih (by omega)
      unfold go_to_step3
      split
      · exact hp
      · exact hp
    | back_to_2 h => exact ih (by omega)
    | forward_3_4 h => exact ih (by omega)
    | back_to_3 h => exact ih (by omega)
    | forward_4_5 crop size h => exact ih (by omega)
    | restart h => norm_num [reset_survey, defaults] at h2

theorem stage_ge2_soil_populated_witness :
    populated (handle_map_event extDemo mdClick defaults) :=
  stage_ge2_soil_populated (handle_map_event extDemo mdClick defaults)
    (Reachable.trans defaults (handle_map_event extDemo mdClick defaults) Reachable.init
      (Transition.map_event extDemo mdClick defaults))
    (Nat.le_refl 2)

/-- C10: an in-region selection event whose latitude equals the session's
stored `clicked_lat` is silently ignored — the handler compares latitude
only, so the session (including any differing longitude) is left wholly
unchanged and the stage does not advance; this holds for both the polygon
branch (centroid latitude) and the point branch. -/
theorem same_lat_selection_ignored (ext : ExternalOps) (s : SessionState) :
    (∀ d p, d.geomType = "Polygon" ∨ d.geomType = "MultiPolygon" → d.parsed = some p →
        ext.contains p.centroid_x p.centroid_y = true → s.clicked_lat = some p.centroid_y →
        handle_map_event ext ⟨[d], none⟩ s = s) ∧
    (∀ lat lon, ext.contains lon lat = true → s.clicked_lat = some lat →
        handle_map_event ext ⟨[], some (lat, lon)⟩ s = s) := by
  constructor
  · intro d p htype hparse hcont hlat
    have hpd : process_drawings ext ⟨[d], none⟩ s = (s, true, false) := by
      unfold process_drawings
      simp only [List.getLast?_singleton]
      rw [if_pos htype, hparse]
      simp only []
      rw [if_neg (not_not_intro hlat)]
    unfold handle_map_event
    rw [hpd]
    rfl
  · intro lat lon hcont hlat
    have hpd : process_drawings ext ⟨[], some (lat, lon)⟩ s = (s, false, false) := rfl
    unfold handle_map_event
    rw [hpd]
    simp only [Bool.false_eq_true, if_false]
    unfold process_click
    simp only [Bool.not_false, if_true]
    rw [if_pos hcont, if_neg (not_not_intro hlat)]

theorem same_lat_selection_ignored_witness :
    handle_map_event extDemo ⟨[sameLatDraw], none⟩ sameLatSession = sameLatSession ∧
    handle_map_event extDemo ⟨[], some (26, -81)⟩ sameLatSession = sameLatSession :=
  ⟨(same_lat_selection_ignored extDemo sameLatSession).1 sameLatDraw ⟨-81, 26, 50⟩
      (Or.inl rfl) rfl rfl rfl,
   (same_lat_selection_ignored extDemo sameLatSession).2 26 (-81) rfl rfl⟩

end EAA
